import Mathlib

set_option maxHeartbeats 1000000

/-!
Shallow embedding of the omnes-tech/go-multicall dispatch-and-reconciliation
engine.  Pure Go functions become Lean functions; the external collaborators
(the ABI encoder/decoder, the chain RPC transport, the signer, and the
deployless fallback helpers, all outside the core source) are abstracted as
oracle fields of an `Env` record.  Go runtime panics (failed type assertions,
out-of-range indexing, nil dereferences) are modelled explicitly by the
`DR.crash` constructor, and Go `error` returns by `DR.err` / `Option GoError`.
-/

abbrev Addr : Type := Nat
abbrev Bytes : Type := List Nat
abbrev GoError : Type := String

/-- The dynamic (`any`-typed) decoded value tree produced by the ABI decoder:
byte strings, strings, integers, booleans, and nested `[]any` lists. -/
inductive Val : Type where
  | vbytes (b : Bytes)
  | vstr (s : String)
  | vnat (n : Nat)
  | vbool (b : Bool)
  | vlist (l : List Val)

/-- Outcome of embedded Go code: a normal value, a returned `error`, or a
runtime panic (process abort). -/
inductive DR (α : Type) : Type where
  | ok (a : α)
  | err (e : GoError)
  | crash (m : String)

/-- Symbolic calldata: the ABI encoder is an external collaborator, so the
encoded payload is represented by the signature and argument list passed to
`abi.EncodeWithSignature` rather than by bytes. -/
structure Calldata : Type where
  sig : String
  args : List Val

/-- Diagnostic record of a stateless call, as returned by the `readContract`
helper (helper itself is outside the provided source; record kept minimal). -/
structure CallRec : Type where
  data : Calldata

/-- An unsigned or signed transaction (signing is external, so signed
transactions share the representation). -/
structure Tx : Type where
  toAddr : Option Addr
  value : Nat
  data : Calldata

/-- A mined transaction receipt. -/
structure Receipt : Type where
  status : Nat
  blockNumber : Option Nat

/-- NetworkRecord ("TxOrCall"): modelled from the spec: either a transaction
record, a read-call snapshot, or the Go zero value `TxOrCall{}`. -/
inductive TxOrCall : Type where
  | empty
  | fromTx (tx : Option Tx) (sender : Addr) (block : Option Nat)
  | fromCall (c : CallRec) (block : Option Nat)

/-- The `any`-typed payload slot of a `Result`: either a decoded value list or
a receipt (the mutating path passes the receipt as fallback payload). -/
inductive GoAny : Type where
  | listV (l : List Val)
  | receiptV (r : Receipt)

/-- The terminal `Result` value. Go zero fields: payload `nil`, `TxOrCall{}`. -/
structure Result : Type where
  success : Bool
  result : Option GoAny
  error : Option GoError
  txOrCall : TxOrCall

/-- The CallSet capability interface (`CallsInterface`): length, per-position
declared return types (`GetReturnTypes`, `none` = Go nil slice), and
serialization (`ToArray`, producing the tuple array and total value). -/
structure CallsI : Type where
  len : Nat
  getReturnTypes : Nat → Option (List String)
  toArray : Bool → Bool → Except GoError (Val × Nat)

/-- The signer capability (`SignerInterface`). -/
structure SignerI : Type where
  address : Addr
  signTx : Tx → Nat → Except GoError Tx

/-- Oracle for every external collaborator: ABI encode/decode, the RPC
transport, transaction building/broadcast, and (modelled from the spec:
Deployless Fallback collaborators, absent from the provided source) the
eight deployless helper functions. -/
structure Env : Type where
  codeAt : Addr → Except GoError Bytes
  encodeErr : String → List Val → Option GoError
  decode : Option (List String) → Bytes → Except GoError (List Val)
  decodeWithSignature : String → Bytes → Except GoError (List Val)
  parseRevertData : GoError → Option Bytes
  readContract : Addr → Option Addr → Calldata → Option Nat → Bytes × CallRec × Option GoError
  callContract : Addr → Option Addr → Calldata → Except GoError Bytes
  blockNumber : Except GoError Nat
  chainId : Except GoError Nat
  createTransaction : Addr → Option Addr → Nat → Calldata → Except GoError Tx
  sendSignedTransaction : Tx → Option Receipt × Option GoError
  deploylessSimulation : CallsI → Option Nat → Result
  deploylessAggregateStatic : CallsI → Option Nat → Result
  deploylessTryAggregateStatic : CallsI → Bool → Option Nat → Result
  deploylessTryAggregateStatic3 : CallsI → Option Nat → Result
  deploylessGetCodeLengths : Option (List Addr) → Option Nat → Result
  deploylessGetBalances : Option (List Addr) → Option Nat → Result
  deploylessGetAddressesData : Option (List Addr) → Option Nat → Result
  deploylessGetChainData : Option Nat → Result

/-- `abi.EncodeWithSignature` (external collaborator, symbolic): succeeds with
the symbolic calldata unless the oracle reports an encoding error. -/
def encodeWithSignature (env : Env) (sig : String) (args : List Val) : Except GoError Calldata :=
  match env.encodeErr sig args with
  | some e => .error e
  | none => .ok ⟨sig, args⟩

def charsPrefixOf : List Char → List Char → Bool
  | [], _ => true
  | _ :: _, [] => false
  | a :: as, b :: bs => a == b && charsPrefixOf as bs

def strContainsAux (pat : List Char) : List Char → Bool
  | [] => pat.isEmpty
  | c :: rest => charsPrefixOf pat (c :: rest) || strContainsAux pat rest

/-- `strings.Contains s pat`. -/
def strContains (s pat : String) : Bool := strContainsAux pat.data s.data

def hexDigit (n : Nat) : Char := if n < 10 then Char.ofNat (48 + n) else Char.ofNat (87 + n)

def hexOfByte (b : Nat) : String := String.mk [hexDigit ((b / 16) % 16), hexDigit (b % 16)]

/-- `common.Bytes2Hex` on raw bytes. -/
def hexOfBytes (bs : Bytes) : String := String.join (bs.map hexOfByte)

/-- Stand-in for `common.Bytes2Hex(callData)` on the symbolic calldata (the
encoded byte string is external, so only the signature is rendered). -/
def calldataText (cd : Calldata) : String := cd.sig

mutual

/-- Explicit size of a decoded value tree (executable replacement for the
auto-derived `SizeOf`). -/
def valSize : Val → Nat
  | .vbytes _ => 1
  | .vstr _ => 1
  | .vnat _ => 1
  | .vbool _ => 1
  | .vlist l => 1 + valsSize l

def valsSize : List Val → Nat
  | [] => 1
  | v :: vs => 1 + valSize v + valsSize vs

end

/-- The count-matching unwrap loop of `makeCall` (part_000 lines 347-349):
`for len(decodedCallResult) != calls.Len() { decodedCallResult = decodedCallResult[0].([]any) }`.
Totalized: the Go loop always either exits, or panics on an empty list
(index out of range) or a non-list first element (failed type assertion),
since each step descends strictly into the finite value tree; the descent is
bounded structurally by `valsSize`, which strictly dominates the nesting
depth, so the fuel constructor is unreachable and the recursion executable. -/
def unwrapFuel (n : Nat) : Nat → List Val → DR (List Val)
  | 0, _ => DR.crash "unreachable: descent bound exhausted"
  | fuel + 1, l =>
    if l.length = n then .ok l
    else
      match l with
      | [] => .crash "runtime error: index out of range"
      | Val.vlist v :: _ => unwrapFuel n fuel v
      | _ :: _ => .crash "interface conversion"

def unwrapLoop (n : Nat) (l : List Val) : DR (List Val) := unwrapFuel n (valsSize l) l

/-- The hex re-encoding loop inside the simulate branch of `makeCall`
(part_000 lines 330-332): each slot must be a `[]any` of length at least 2
whose element 1 is `[]byte`; that element is replaced by its hex string. -/
def simHexify : List Val → DR (List Val)
  | [] => DR.ok []
  | v :: rest =>
    match v with
    | .vlist (a :: b :: tl) =>
      match b with
      | .vbytes bs =>
        match simHexify rest with
        | DR.ok tl2 => DR.ok (Val.vlist (a :: Val.vstr (hexOfBytes bs) :: tl) :: tl2)
        | x => x
      | _ => DR.crash "interface conversion"
    | .vlist _ => DR.crash "runtime error: index out of range"
    | _ => DR.crash "interface conversion"

/-- Body of the per-call decode loop of `decodeAggregateCallsResult`
(part_000 lines 392-409), indexed: the Go condition
`returnTypes != nil || len(returnTypes) > 0` holds exactly when the slice is
non-nil (a nil slice has length 0), modelled by `Option.isSome`. -/
def decodeAggLoop (env : Env) (calls : CallsI) (i : Nat) : List Val → DR (List Val)
  | [] => DR.ok []
  | res :: rest =>
    match calls.getReturnTypes i with
    | some rts =>
      match res with
      | .vbytes r =>
        match env.decode (some rts) r with
        | .error e => DR.err e
        | .ok decodedR =>
          match decodeAggLoop env calls (i + 1) rest with
          | DR.ok tl => DR.ok (Val.vlist decodedR :: tl)
          | x => x
      | .vlist l =>
        match decodeAggLoop env calls (i + 1) rest with
        | DR.ok tl => DR.ok (Val.vlist l :: tl)
        | x => x
      | _ => DR.crash "interface conversion"
    | none =>
      match res with
      | .vlist l =>
        match decodeAggLoop env calls (i + 1) rest with
        | DR.ok tl => DR.ok (Val.vlist l :: tl)
        | x => x
      | _ => DR.crash "interface conversion"

/-- `decodeAggregateCallsResult` (part_000 lines 390-412). -/
def decodeAggregateCallsResult (env : Env) (result : List Val) (calls : CallsI) : DR (List Val) :=
  decodeAggLoop env calls 0 result

/-- Decoding of one slot, extracted from the loop body of
`decodeAggregateCallsResult`, used to state the per-position correspondence. -/
def slotDecode (env : Env) (returnTypes : Option (List String)) (res : Val) : DR Val :=
  match returnTypes with
  | some rts =>
    match res with
    | .vbytes r =>
      match env.decode (some rts) r with
      | .error e => DR.err e
      | .ok decodedR => DR.ok (Val.vlist decodedR)
    | .vlist l => DR.ok (Val.vlist l)
    | _ => DR.crash "interface conversion"
  | none =>
    match res with
    | .vlist l => DR.ok (Val.vlist l)
    | _ => DR.crash "interface conversion"

/-- `makeCall` (part_000 lines 305-365).  The `multicallAddress` parameter is
omitted: in the source it is only dead-logged and locally reassigned, with no
observable effect.  The simulate branch faithfully reproduces the Go variable
shadowing: the revert payload is decoded and hexified into a *shadowed*
`decodedCallResult` local, so the outer decoded list stays nil afterwards;
the branch can also panic on `err.Error()` when the transport error is nil. -/
def makeCall (env : Env) (calls : CallsI) (toA : Option Addr) (callData : Calldata)
    (txReturnTypes : Option (List String)) (isSimulation : Bool)
    (blockNumber : Option Nat) : DR (List Val × List Val × TxOrCall) :=
  let rc := env.readContract 0 toA callData blockNumber
  let encodedCallResult := rc.1
  let callRec := rc.2.1
  let err0 := rc.2.2
  let step1 : DR Unit :=
    match err0, isSimulation with
    | some e, false => DR.err e
    | none, false => DR.ok ()
    | none, true => DR.crash "runtime error: invalid memory address or nil pointer dereference"
    | some e, true =>
      if strContains e "execution reverted" then
        match env.parseRevertData e with
        | some encodedRevert =>
          match env.decodeWithSignature "MultiCall__Simulation((bool,bytes,uint256)[])" encodedRevert with
          | .error e2 => DR.err e2
          | .ok inner =>
            match inner with
            | [] => DR.crash "runtime error: index out of range"
            | Val.vlist innerList :: _ =>
              match simHexify innerList with
              | DR.crash m => DR.crash m
              | _ => DR.ok ()
            | _ :: _ => DR.crash "interface conversion"
        | none => DR.ok ()
      else DR.ok ()
  match step1 with
  | DR.crash m => DR.crash m
  | DR.err e => DR.err e
  | DR.ok _ =>
    let decodedStep : DR (List Val) :=
      match isSimulation with
      | false =>
        match env.decode txReturnTypes encodedCallResult with
        | .error e => DR.err e
        | .ok d => DR.ok d
      | true => DR.ok []
    match decodedStep with
    | DR.crash m => DR.crash m
    | DR.err e => DR.err e
    | DR.ok decoded0 =>
      match unwrapLoop calls.len decoded0 with
      | DR.crash m => DR.crash m
      | DR.err e => DR.err e
      | DR.ok decoded =>
        match decodeAggregateCallsResult env decoded calls with
        | DR.crash m => DR.crash m
        | DR.err e => DR.err e
        | DR.ok agg =>
          match blockNumber with
          | some bn => DR.ok (decoded, agg, TxOrCall.fromCall callRec (some bn))
          | none =>
            match env.blockNumber with
            | .error e => DR.err e
            | .ok bnv => DR.ok (decoded, agg, TxOrCall.fromCall callRec (some bnv))

/-- `parseResults` (part_000 lines 367-388). -/
def parseResults (decodedCallResult : List Val) (status : Bool) (callOrTxResult : GoAny)
    (callOrTx : TxOrCall) : Result :=
  if decodedCallResult.length > 0 then
    ⟨status, some (GoAny.listV decodedCallResult), none, callOrTx⟩
  else
    ⟨status, some callOrTxResult, none, callOrTx⟩

/-- Calldata construction of `write` (part_000 lines 61-66): the
`requireSuccess` scalar is appended exactly for the three-field-tuple
failure-tolerant aggregate signature. -/
def writeEncodeCalldata (env : Env) (funcSignature : String) (arrayfiedCalls : Val)
    (requireSuccess : Bool) : Except GoError Calldata :=
  if funcSignature = "tryAggregateCalls((address,bytes,uint256)[],bool)" then
    encodeWithSignature env funcSignature [arrayfiedCalls, Val.vbool requireSuccess]
  else
    encodeWithSignature env funcSignature [arrayfiedCalls]

/-- Calldata construction of `asRead` (part_000 lines 164-169), identical in
shape to the one in `write`. -/
def asReadEncodeCalldata (env : Env) (funcSignature : String) (arrayfiedCalls : Val)
    (requireSuccess : Bool) : Except GoError Calldata :=
  if funcSignature = "tryAggregateCalls((address,bytes,uint256)[],bool)" then
    encodeWithSignature env funcSignature [arrayfiedCalls, Val.vbool requireSuccess]
  else
    encodeWithSignature env funcSignature [arrayfiedCalls]

/-- Calldata construction of `read` (part_000 lines 236-246), together with
its updates of `isSimulation`: here the scalar is appended for the
*two-field* static signature `tryAggregateStatic((address,bytes)[],bool)`. -/
def readEncodeCalldata (env : Env) (funcSignature : String) (arrayfiedCalls : Val)
    (requireSuccess : Bool) (isSimulation : Bool) : Except GoError Calldata × Bool :=
  let isSimulation1 :=
    if funcSignature = "tryAggregateStatic((address,bytes,bool)[])" then false else isSimulation
  if funcSignature = "tryAggregateStatic((address,bytes)[],bool)" then
    (encodeWithSignature env funcSignature [arrayfiedCalls, Val.vbool requireSuccess], false)
  else
    (encodeWithSignature env funcSignature [arrayfiedCalls], isSimulation1)

/-- `write` (part_000 lines 52-123).  The dry-run failure branch reproduces
the Go shadowing of `err` by `client.BlockNumber`: the error returned after a
successful block-number lookup wraps the shadowed nil error, not the dry-run
error (rendered as Go renders a nil `%w` verb).  The broadcast error branch
dereferences the possibly-nil receipt, and the success branch reads
`receipt.Status`, as in the source. -/
def write (env : Env) (calls : CallsI) (requireSuccess : Bool) (signer : SignerI)
    (toA : Option Addr) (funcSignature : String) (txReturnTypes : Option (List String))
    (withValue : Bool) (isMultiCall3Type : Bool) : DR Result :=
  match calls.toArray withValue isMultiCall3Type with
  | .error e => DR.ok ⟨false, none, some e, .empty⟩
  | .ok (arrayfiedCalls, msgValue) =>
    match writeEncodeCalldata env funcSignature arrayfiedCalls requireSuccess with
    | .error e => DR.ok ⟨false, none, some e, .empty⟩
    | .ok callData =>
      match env.createTransaction signer.address toA msgValue callData with
      | .error e => DR.ok ⟨false, none, some e, .fromTx none signer.address none⟩
      | .ok tx =>
        match env.chainId with
        | .error e => DR.ok ⟨false, none, some e, .fromTx (some tx) signer.address none⟩
        | .ok chainIdv =>
          match signer.signTx tx chainIdv with
          | .error e => DR.ok ⟨false, none, some e, .fromTx (some tx) signer.address none⟩
          | .ok signedTx =>
            match env.callContract signer.address toA callData with
            | .error _ =>
              match env.blockNumber with
              | .error e2 => DR.ok ⟨false, none, some e2, .fromTx (some tx) signer.address none⟩
              | .ok bn =>
                DR.ok ⟨false, none,
                  some ("error calling contract: %!w(<nil>), with data: " ++ calldataText callData),
                  .fromTx (some tx) signer.address (some bn)⟩
            | .ok encodedCallResult =>
              match env.sendSignedTransaction signedTx with
              | (rOpt, some e) =>
                match rOpt with
                | none => DR.crash "runtime error: invalid memory address or nil pointer dereference"
                | some receipt =>
                  DR.ok ⟨false, none, some ("error sending signed transaction: " ++ e),
                    .fromTx (some tx) signer.address receipt.blockNumber⟩
              | (rOpt, none) =>
                match rOpt with
                | none => DR.crash "runtime error: invalid memory address or nil pointer dereference"
                | some receipt =>
                  match env.decode txReturnTypes encodedCallResult with
                  | .error e => DR.ok ⟨false, none, some ("error decoding call result: " ++ e),
                      .fromTx (some tx) signer.address receipt.blockNumber⟩
                  | .ok decodedCallResult =>
                    DR.ok (parseResults decodedCallResult (receipt.status == 1)
                      (GoAny.receiptV receipt)
                      (.fromTx (some signedTx) signer.address receipt.blockNumber))

/-- `transactWithFailure` (part_000 lines 16-32). -/
def transactWithFailure (env : Env) (calls : CallsI) (requireSuccess : Bool) (signer : SignerI)
    (toA : Option Addr) (funcSignature : String) (txReturnTypes : Option (List String))
    (withValue : Bool) (isMultiCall3Type : Bool) : DR Result :=
  write env calls requireSuccess signer toA funcSignature txReturnTypes withValue isMultiCall3Type

/-- `transact` (part_000 lines 34-50). -/
def transact (env : Env) (calls : CallsI) (requireSuccess : Bool) (signer : SignerI)
    (toA : Option Addr) (funcSignature : String) (txReturnTypes : Option (List String))
    (withValue : Bool) (isMultiCall3Type : Bool) : DR Result :=
  write env calls requireSuccess signer toA funcSignature txReturnTypes withValue isMultiCall3Type

/-- `asRead` (part_000 lines 155-189). -/
def asRead (env : Env) (calls : CallsI) (requireSuccess : Bool) (toA : Option Addr)
    (funcSignature : String) (txReturnTypes : Option (List String))
    (blockNumber : Option Nat) : DR Result :=
  match calls.toArray true false with
  | .error e => DR.ok ⟨false, none, some e, .empty⟩
  | .ok (arrayfiedCalls, _) =>
    match asReadEncodeCalldata env funcSignature arrayfiedCalls requireSuccess with
    | .error e => DR.ok ⟨false, none, some e, .empty⟩
    | .ok callData =>
      match makeCall env calls toA callData txReturnTypes false blockNumber with
      | DR.crash m => DR.crash m
      | DR.err e => DR.ok ⟨false, none, some e, .empty⟩
      | DR.ok (decoded, agg, c) => DR.ok (parseResults agg true (GoAny.listV decoded) c)

/-- `txAsReadWithFailure` (part_000 lines 125-138). -/
def txAsReadWithFailure (env : Env) (calls : CallsI) (requireSuccess : Bool) (toA : Option Addr)
    (funcSignature : String) (txReturnTypes : Option (List String))
    (blockNumber : Option Nat) : DR Result :=
  asRead env calls requireSuccess toA funcSignature txReturnTypes blockNumber

/-- `txAsRead` (part_000 lines 140-153). -/
def txAsRead (env : Env) (calls : CallsI) (requireSuccess : Bool) (toA : Option Addr)
    (funcSignature : String) (txReturnTypes : Option (List String))
    (blockNumber : Option Nat) : DR Result :=
  asRead env calls requireSuccess toA funcSignature txReturnTypes blockNumber

/-- `read` (part_000 lines 226-266); the behaviorally dead `multicallAddress`
parameter is omitted, and the Lean name avoids the core-library `read`. -/
def readDispatch (env : Env) (calls : CallsI) (requireSuccess : Bool) (toA : Option Addr)
    (funcSignature : String) (txReturnTypes : Option (List String))
    (blockNumber : Option Nat) (isSimulation : Bool) : DR Result :=
  match calls.toArray false false with
  | .error e => DR.ok ⟨false, none, some e, .empty⟩
  | .ok (arrayfiedCalls, _) =>
    match readEncodeCalldata env funcSignature arrayfiedCalls requireSuccess isSimulation with
    | (.error e, _) => DR.ok ⟨false, none, some e, .empty⟩
    | (.ok callData, isSimulation2) =>
      match makeCall env calls toA callData txReturnTypes isSimulation2 blockNumber with
      | DR.crash m => DR.crash m
      | DR.err e => DR.ok ⟨false, none, some e, .empty⟩
      | DR.ok (decoded, agg, c) => DR.ok (parseResults agg true (GoAny.listV decoded) c)

/-- `call` (part_000 lines 191-207). -/
def call (env : Env) (calls : CallsI) (requireSuccess : Bool) (toA : Option Addr)
    (funcSignature : String) (txReturnTypes : Option (List String))
    (blockNumber : Option Nat) (isSimulation : Bool) : DR Result :=
  readDispatch env calls requireSuccess toA funcSignature txReturnTypes blockNumber isSimulation

/-- `callWithFailure` (part_000 lines 209-224). -/
def callWithFailure (env : Env) (calls : CallsI) (toA : Option Addr)
    (funcSignature : String) (txReturnTypes : Option (List String))
    (blockNumber : Option Nat) : DR Result :=
  readDispatch env calls false toA funcSignature txReturnTypes blockNumber false

/-- `getData` (part_000 lines 268-303): metadata reads take a flat optional
address list, never a CallSet, and perform no per-call reconciliation. -/
def getData (env : Env) (addresses : Option (List Addr)) (toA : Option Addr)
    (funcSignature : String) (returnTypes : Option (List String))
    (blockNumber : Option Nat) : DR Result :=
  let enc :=
    match addresses with
    | some addrs => encodeWithSignature env funcSignature [Val.vlist (addrs.map Val.vnat)]
    | none => encodeWithSignature env funcSignature []
  match enc with
  | .error e => DR.ok ⟨false, none, some e, .empty⟩
  | .ok callData =>
    let rc := env.readContract 0 toA callData blockNumber
    let encodedCallResult := rc.1
    let callRec := rc.2.1
    match rc.2.2 with
    | some e => DR.ok ⟨false, none, some e, .fromCall callRec blockNumber⟩
    | none =>
      match env.decode returnTypes encodedCallResult with
      | .error e => DR.ok ⟨false, none, some e, .fromCall callRec blockNumber⟩
      | .ok decodedCallResult =>
        match blockNumber with
        | none =>
          match env.blockNumber with
          | .error e => DR.ok ⟨false, none, some e, .fromCall callRec none⟩
          | .ok bn =>
            DR.ok ⟨true, some (GoAny.listV decodedCallResult), none, .fromCall callRec (some bn)⟩
        | some bn =>
          DR.ok ⟨true, some (GoAny.listV decodedCallResult), none, .fromCall callRec (some bn)⟩

/-- The well-known batching-contract address (`OMNES_MULTICALL_ADDRESS`,
declared outside the provided source; value as printed by the repository's
example test). -/
def OMNES_MULTICALL_ADDRESS : Addr := 0xcA11bde05977b3631167028862bE2a173976CA11

/-- The `MultiCall` client value (multicall.go lines 13-16). -/
structure MultiCall : Type where
  contractAddress : Option Addr
  signer : Option SignerI

/-- `NewMultiCall` (multicall.go lines 18-39): the deployless mode is detected
once at construction time by checking for bytecode at the well-known address. -/
def NewMultiCall (env : Env) (signer : Option SignerI) : Except GoError MultiCall :=
  match env.codeAt OMNES_MULTICALL_ADDRESS with
  | .error e => .error ("error getting bytecode: " ++ e)
  | .ok bytecode =>
    .ok ⟨if bytecode.length = 0 then none else some OMNES_MULTICALL_ADDRESS, signer⟩

/-- `MultiCall.AggregateCalls` (multicall.go lines 41-75). -/
def MultiCall.AggregateCalls (m : MultiCall) (env : Env) (calls : CallsI)
    (blockNumber : Option Nat) (isCall : Bool) : DR Result :=
  if m.signer.isNone && !isCall then
    DR.ok ⟨false, none, some "no signer configured", .empty⟩
  else
    match m.contractAddress with
    | none => DR.ok ⟨false, none, some "no multicall contract on this chain", .empty⟩
    | some a =>
      if isCall then
        txAsRead env calls false (some a) "aggregateCalls((address,bytes,uint256)[])"
          (some ["bytes[]"]) blockNumber
      else
        match m.signer with
        | some s =>
          transact env calls false s (some a) "aggregateCalls((address,bytes,uint256)[])"
            (some ["bytes[]"]) true false
        | none => DR.crash "runtime error: invalid memory address or nil pointer dereference"

/-- `MultiCall.TryAggregateCalls` (multicall.go lines 77-111). -/
def MultiCall.TryAggregateCalls (m : MultiCall) (env : Env) (calls : CallsI)
    (requireSuccess : Bool) (blockNumber : Option Nat) (isCall : Bool) : DR Result :=
  if m.signer.isNone && !isCall then
    DR.ok ⟨false, none, some "no signer configured", .empty⟩
  else
    match m.contractAddress with
    | none => DR.ok ⟨false, none, some "no multicall contract on this chain", .empty⟩
    | some a =>
      if isCall then
        txAsRead env calls requireSuccess (some a) "tryAggregateCalls((address,bytes,uint256)[],bool)"
          (some ["(bool,bytes)[]"]) blockNumber
      else
        match m.signer with
        | some s =>
          transact env calls requireSuccess s (some a)
            "tryAggregateCalls((address,bytes,uint256)[],bool)"
            (some ["(bool,bytes)[]"]) true false
        | none => DR.crash "runtime error: invalid memory address or nil pointer dereference"

/-- `MultiCall.TryAggregateCalls3` (multicall.go lines 113-147). -/
def MultiCall.TryAggregateCalls3 (m : MultiCall) (env : Env) (calls : CallsI)
    (blockNumber : Option Nat) (isCall : Bool) : DR Result :=
  if m.signer.isNone && !isCall then
    DR.ok ⟨false, none, some "no signer configured", .empty⟩
  else
    match m.contractAddress with
    | none => DR.ok ⟨false, none, some "no multicall contract on this chain", .empty⟩
    | some a =>
      if isCall then
        txAsReadWithFailure env calls false (some a)
          "tryAggregateCalls((address,bytes,uint256,bool)[])"
          (some ["(bool,bytes)[]"]) blockNumber
      else
        match m.signer with
        | some s =>
          transactWithFailure env calls false s (some a)
            "tryAggregateCalls((address,bytes,uint256,bool)[])"
            (some ["(bool,bytes)[]"]) true false
        | none => DR.crash "runtime error: invalid memory address or nil pointer dereference"

/-- `MultiCall.SimulateCall` (multicall.go lines 149-168). -/
def MultiCall.SimulateCall (m : MultiCall) (env : Env) (calls : CallsI)
    (blockNumber : Option Nat) : DR Result :=
  match m.contractAddress with
  | none => DR.ok (env.deploylessSimulation calls blockNumber)
  | some a =>
    call env calls false (some a) "simulateCalls((address,bytes)[])" none blockNumber true

/-- `MultiCall.AggregateStatic` (multicall.go lines 170-189). -/
def MultiCall.AggregateStatic (m : MultiCall) (env : Env) (calls : CallsI)
    (blockNumber : Option Nat) : DR Result :=
  match m.contractAddress with
  | none => DR.ok (env.deploylessAggregateStatic calls blockNumber)
  | some a =>
    call env calls false (some a) "aggregateStatic((address,bytes)[])" (some ["bytes[]"])
      blockNumber false

/-- `MultiCall.TryAggregateStatic` (multicall.go lines 191-210). -/
def MultiCall.TryAggregateStatic (m : MultiCall) (env : Env) (calls : CallsI)
    (requireSuccess : Bool) (blockNumber : Option Nat) : DR Result :=
  match m.contractAddress with
  | none => DR.ok (env.deploylessTryAggregateStatic calls requireSuccess blockNumber)
  | some a =>
    call env calls requireSuccess (some a) "tryAggregateStatic((address,bytes)[],bool)"
      (some ["(bool,bytes)[]"]) blockNumber false

/-- `MultiCall.TryAggregateStatic3` (multicall.go lines 212-229). -/
def MultiCall.TryAggregateStatic3 (m : MultiCall) (env : Env) (calls : CallsI)
    (blockNumber : Option Nat) : DR Result :=
  match m.contractAddress with
  | none => DR.ok (env.deploylessTryAggregateStatic3 calls blockNumber)
  | some a =>
    callWithFailure env calls (some a) "tryAggregateStatic((address,bytes,bool)[])"
      (some ["(bool,bytes)[]"]) blockNumber

/-- `MultiCall.CodeLengths` (multicall.go lines 231-247). -/
def MultiCall.CodeLengths (m : MultiCall) (env : Env) (addresses : Option (List Addr))
    (blockNumber : Option Nat) : DR Result :=
  match m.contractAddress with
  | none => DR.ok (env.deploylessGetCodeLengths addresses blockNumber)
  | some a =>
    getData env addresses (some a) "getCodeLengths(address[])" (some ["uint256[]"]) blockNumber

/-- `MultiCall.Balances` (multicall.go lines 249-264). -/
def MultiCall.Balances (m : MultiCall) (env : Env) (addresses : Option (List Addr))
    (blockNumber : Option Nat) : DR Result :=
  match m.contractAddress with
  | none => DR.ok (env.deploylessGetBalances addresses blockNumber)
  | some a =>
    getData env addresses (some a) "getBalances(address[])" (some ["uint256[]"]) blockNumber

/-- `MultiCall.AddressesData` (multicall.go lines 266-281). -/
def MultiCall.AddressesData (m : MultiCall) (env : Env) (addresses : Option (List Addr))
    (blockNumber : Option Nat) : DR Result :=
  match m.contractAddress with
  | none => DR.ok (env.deploylessGetAddressesData addresses blockNumber)
  | some a =>
    getData env addresses (some a) "getAddressesData(address[])"
      (some ["uint256[]", "uint256[]"]) blockNumber

/-- `MultiCall.ChainData` (multicall.go lines 283-306). -/
def MultiCall.ChainData (m : MultiCall) (env : Env) (blockNumber : Option Nat) : DR Result :=
  match m.contractAddress with
  | none => DR.ok (env.deploylessGetChainData blockNumber)
  | some a =>
    getData env none (some a) "getChainData()"
      (some ["uint256", "uint256", "bytes32", "uint256", "address", "uint256", "uint256",
             "uint256", "uint256"]) blockNumber

/-- The eleven public entry points of the `MultiCall` client. -/
inductive EntryPoint : Type where
  | aggregateCalls
  | tryAggregateCalls
  | tryAggregateCalls3
  | simulateCall
  | aggregateStatic
  | tryAggregateStatic
  | tryAggregateStatic3
  | codeLengths
  | balances
  | addressesData
  | chainData

def allEntryPoints : List EntryPoint :=
  [.aggregateCalls, .tryAggregateCalls, .tryAggregateCalls3, .simulateCall, .aggregateStatic,
   .tryAggregateStatic, .tryAggregateStatic3, .codeLengths, .balances, .addressesData, .chainData]

/-- Uniform dispatcher over the eleven public entry points. -/
def dispatchEntry (ep : EntryPoint) (m : MultiCall) (env : Env) (calls : CallsI)
    (addresses : Option (List Addr)) (requireSuccess : Bool) (blockNumber : Option Nat)
    (isCall : Bool) : DR Result :=
  match ep with
  | .aggregateCalls => m.AggregateCalls env calls blockNumber isCall
  | .tryAggregateCalls => m.TryAggregateCalls env calls requireSuccess blockNumber isCall
  | .tryAggregateCalls3 => m.TryAggregateCalls3 env calls blockNumber isCall
  | .simulateCall => m.SimulateCall env calls blockNumber
  | .aggregateStatic => m.AggregateStatic env calls blockNumber
  | .tryAggregateStatic => m.TryAggregateStatic env calls requireSuccess blockNumber
  | .tryAggregateStatic3 => m.TryAggregateStatic3 env calls blockNumber
  | .codeLengths => m.CodeLengths env addresses blockNumber
  | .balances => m.Balances env addresses blockNumber
  | .addressesData => m.AddressesData env addresses blockNumber
  | .chainData => m.ChainData env blockNumber

/-- The result produced by the deployless collaborator that corresponds to an
entry point (identity on entry points without a deployless variant is the
"no multicall contract" failure the three mutating entry points return). -/
def deploylessOf (ep : EntryPoint) (env : Env) (calls : CallsI) (addresses : Option (List Addr))
    (requireSuccess : Bool) (blockNumber : Option Nat) : Result :=
  match ep with
  | .simulateCall => env.deploylessSimulation calls blockNumber
  | .aggregateStatic => env.deploylessAggregateStatic calls blockNumber
  | .tryAggregateStatic => env.deploylessTryAggregateStatic calls requireSuccess blockNumber
  | .tryAggregateStatic3 => env.deploylessTryAggregateStatic3 calls blockNumber
  | .codeLengths => env.deploylessGetCodeLengths addresses blockNumber
  | .balances => env.deploylessGetBalances addresses blockNumber
  | .addressesData => env.deploylessGetAddressesData addresses blockNumber
  | .chainData => env.deploylessGetChainData blockNumber
  | _ => ⟨false, none, some "no multicall contract on this chain", .empty⟩

/-- A tagged `Result` used by the probe environment to make the deployless
collaborators observable. -/
def dlRes (s : String) : Result := ⟨true, none, some ("deployless:" ++ s), .empty⟩

def dlTags : List String :=
  ["deployless:simulation", "deployless:aggregateStatic", "deployless:tryAggregateStatic",
   "deployless:tryAggregateStatic3", "deployless:getCodeLengths", "deployless:getBalances",
   "deployless:getAddressesData", "deployless:getChainData"]

def signer0 : SignerI := ⟨0, fun t _ => .ok t⟩

/-- A CallSet with one call and no declared return types. -/
def calls1 : CallsI := ⟨1, fun _ => none, fun _ _ => .ok (Val.vlist [], 0)⟩

/-- A CallSet with two calls and no declared return types. -/
def calls2 : CallsI := ⟨2, fun _ => none, fun _ _ => .ok (Val.vlist [], 0)⟩

/-- A benign concrete environment: every collaborator succeeds, and each
deployless collaborator returns its tagged result. -/
def env0 : Env where
  codeAt := fun _ => .ok [1]
  encodeErr := fun _ _ => none
  decode := fun _ _ => .ok [Val.vlist [Val.vbool true, Val.vbytes [1]]]
  decodeWithSignature := fun _ _ => .error "no simulation payload"
  parseRevertData := fun _ => none
  readContract := fun _ _ cd _ => ([0], ⟨cd⟩, none)
  callContract := fun _ _ _ => .ok [0]
  blockNumber := .ok 5
  chainId := .ok 1
  createTransaction := fun _ t v cd => .ok ⟨t, v, cd⟩
  sendSignedTransaction := fun _ => (some ⟨1, some 9⟩, none)
  deploylessSimulation := fun _ _ => dlRes "simulation"
  deploylessAggregateStatic := fun _ _ => dlRes "aggregateStatic"
  deploylessTryAggregateStatic := fun _ _ _ => dlRes "tryAggregateStatic"
  deploylessTryAggregateStatic3 := fun _ _ => dlRes "tryAggregateStatic3"
  deploylessGetCodeLengths := fun _ _ => dlRes "getCodeLengths"
  deploylessGetBalances := fun _ _ => dlRes "getBalances"
  deploylessGetAddressesData := fun _ _ => dlRes "getAddressesData"
  deploylessGetChainData := fun _ => dlRes "getChainData"

/-- An entry point has a deployless variant iff, probed with no deployed
contract (and a signer present so the mutating guard passes), the dispatch
lands in a deployless collaborator. -/
def routesToDeployless (ep : EntryPoint) : Bool :=
  match dispatchEntry ep ⟨none, some signer0⟩ env0 calls1 (some []) false none false with
  | DR.ok r =>
    match r.error with
    | some e => dlTags.contains e
    | none => false
  | _ => false

/-- Environment in which the transport reports a revert carrying a decodable
simulation payload: one `(success, returnData, gasUsed)` triple. -/
def envRevert : Env :=
  { env0 with
    readContract := fun _ _ cd _ => ([], ⟨cd⟩, some "execution reverted"),
    parseRevertData := fun _ => some [7],
    decodeWithSignature := fun _ _ =>
      .ok [Val.vlist [Val.vlist [Val.vbool true, Val.vbytes [171], Val.vnat 5]]] }

/-- Environment whose outer decode yields a single byte-string slot (a
structurally mismatched response for a two-call batch). -/
def envOneSlot : Env := { env0 with decode := fun _ _ => .ok [Val.vbytes [0]] }

/-- Environment whose dry-run stateless call fails while everything earlier
succeeds (for exercising the mutating path's pre-broadcast guard). -/
def envDryFail : Env :=
  { env0 with callContract := fun _ _ _ => .error "execution reverted: insufficient balance" }

/-- A two-call CallSet declaring return types for position 0 only. -/
def callsRT : CallsI :=
  ⟨2, fun i => if i = 0 then some ["uint256"] else none, fun _ _ => .ok (Val.vlist [], 0)⟩

/-- Environment whose per-call decode yields the single value 42. -/
def envDec : Env := { env0 with decode := fun _ _ => .ok [Val.vnat 42] }

/-- A CallSet whose normalization (`ToArray`) fails. -/
def callsBad : CallsI := ⟨1, fun _ => none, fun _ _ => .error "invalid target address"⟩

/-- Environment whose ABI encoder rejects every request. -/
def envEncFail : Env := { env0 with encodeErr := fun _ _ => some "cannot encode arguments" }

/-- Environment whose transport fails every stateless read. -/
def envTransportFail : Env :=
  { env0 with readContract := fun _ _ cd _ => ([], ⟨cd⟩, some "connection refused") }

/-- Environment whose outer decode rejects the response bytes. -/
def envDecodeFail : Env := { env0 with decode := fun _ _ => .error "abi: cannot unmarshal" }

theorem unwrapFuel_ok_length (n : Nat) :
    ∀ (fuel : Nat) (l l' : List Val), unwrapFuel n fuel l = DR.ok l' → l'.length = n := by
  intro fuel
  induction fuel with
  | zero =>
    intro l l' h
    simp [unwrapFuel] at h
  | succ fuel ih =>
    intro l l' h
    simp only [unwrapFuel] at h
    split at h
    · rename_i hlen
      cases h
      exact hlen
    · split at h
      · cases h
      · exact ih _ _ h
      · cases h

/-- C1 (counterexample): a decoded outer response whose first-element descent
never reaches the CallSet's cardinality makes the count-matching unwrap abort
with a failed type assertion instead of yielding a per-call list: a two-call
batch whose outer schema decoded to a single byte-string slot. -/
theorem unwrap_mismatch_aborts :
    unwrapLoop 2 [Val.vbytes []] = DR.crash "interface conversion" := by rfl

/-- C1 (amended): the count-matching unwrap never loops forever (it is a
structural descent into a finite decoded value tree), and whenever it exits
normally — rather than panicking on an empty list or a non-list first
element — the list it yields has exactly the CallSet's length. -/
theorem unwrap_normal_exit_length (n : Nat) (l l' : List Val)
    (h : unwrapLoop n l = DR.ok l') : l'.length = n :=
  unwrapFuel_ok_length n (valsSize l) l l' h

/-- Witness for `unwrap_normal_exit_length` at a singly nested two-call
response. -/
theorem unwrap_normal_exit_length_witness :
    unwrapLoop 2 [Val.vlist [Val.vbytes [1], Val.vbytes [2]]] =
      DR.ok [Val.vbytes [1], Val.vbytes [2]] ∧
    ([Val.vbytes [1], Val.vbytes [2]] : List Val).length = 2 :=
  ⟨rfl, unwrap_normal_exit_length 2 [Val.vlist [Val.vbytes [1], Val.vbytes [2]]]
    [Val.vbytes [1], Val.vbytes [2]] rfl⟩

/-- C2 (code bug): in simulate mode with a revert-carried payload, the revert
decode and hex re-encoding both succeed — the environment returns one
`(true, 0xab, 5)` triple, whose hexified form is available — yet the dispatch
panics instead of producing that per-call list, because the decoded triples
are assigned to a shadowed local and the count-matching unwrap then runs on
the still-nil outer list. -/
theorem simulate_revert_payload_discarded_crash :
    envRevert.decodeWithSignature "MultiCall__Simulation((bool,bytes,uint256)[])" [7] =
      .ok [Val.vlist [Val.vlist [Val.vbool true, Val.vbytes [171], Val.vnat 5]]] ∧
    simHexify [Val.vlist [Val.vbool true, Val.vbytes [171], Val.vnat 5]] =
      DR.ok [Val.vlist [Val.vbool true, Val.vstr "ab", Val.vnat 5]] ∧
    MultiCall.SimulateCall ⟨some 1, none⟩ envRevert calls1 none =
      DR.crash "runtime error: index out of range" :=
  ⟨rfl, rfl, rfl⟩

theorem write_dry_run_core
    (env : Env) (calls : CallsI) (rs : Bool) (signer : SignerI) (toA : Option Addr)
    (sig : String) (rts : Option (List String)) (wv mc3 : Bool)
    (arr : Val) (mv : Nat) (cd : Calldata) (tx : Tx) (cid : Nat) (stx : Tx)
    (e : GoError) (bn : Nat)
    (h1 : calls.toArray wv mc3 = .ok (arr, mv))
    (h2 : writeEncodeCalldata env sig arr rs = .ok cd)
    (h3 : env.createTransaction signer.address toA mv cd = .ok tx)
    (h4 : env.chainId = .ok cid)
    (h5 : signer.signTx tx cid = .ok stx)
    (h6 : env.callContract signer.address toA cd = .error e)
    (h7 : env.blockNumber = .ok bn) :
    write env calls rs signer toA sig rts wv mc3 =
      DR.ok ⟨false, none,
        some ("error calling contract: %!w(<nil>), with data: " ++ calldataText cd),
        .fromTx (some tx) signer.address (some bn)⟩ := by
  simp only [write, h1, h2, h3, h4, h5, h6, h7]

/-- C3 (code bug; behavior at the failing input): when the pre-broadcast
dry-run stateless call fails (and the diagnostic block-number lookup
succeeds), the signed transaction is never broadcast — the outcome is
identical for every broadcast collaborator `f`, so `sendSignedTransaction`
is never consulted — and the Result is a failure; but its error wraps the
shadowed nil error (Go renders the nil `%w` verb as `%!w(<nil>)`), so the
dry-run error `e` itself is discarded, contrary to the claim and to the
format string's own intent. -/
theorem write_dry_run_fail_never_broadcasts
    (env : Env) (calls : CallsI) (rs : Bool) (signer : SignerI) (toA : Option Addr)
    (sig : String) (rts : Option (List String)) (wv mc3 : Bool)
    (arr : Val) (mv : Nat) (cd : Calldata) (tx : Tx) (cid : Nat) (stx : Tx)
    (e : GoError) (bn : Nat)
    (h1 : calls.toArray wv mc3 = .ok (arr, mv))
    (h2 : writeEncodeCalldata env sig arr rs = .ok cd)
    (h3 : env.createTransaction signer.address toA mv cd = .ok tx)
    (h4 : env.chainId = .ok cid)
    (h5 : signer.signTx tx cid = .ok stx)
    (h6 : env.callContract signer.address toA cd = .error e)
    (h7 : env.blockNumber = .ok bn) :
    write env calls rs signer toA sig rts wv mc3 =
      DR.ok ⟨false, none,
        some ("error calling contract: %!w(<nil>), with data: " ++ calldataText cd),
        .fromTx (some tx) signer.address (some bn)⟩ ∧
    ∀ f : Tx → Option Receipt × Option GoError,
      write { env with sendSignedTransaction := f } calls rs signer toA sig rts wv mc3 =
        DR.ok ⟨false, none,
          some ("error calling contract: %!w(<nil>), with data: " ++ calldataText cd),
          .fromTx (some tx) signer.address (some bn)⟩ :=
  ⟨write_dry_run_core env calls rs signer toA sig rts wv mc3 arr mv cd tx cid stx e bn
      h1 h2 h3 h4 h5 h6 h7,
   fun f =>
    write_dry_run_core { env with sendSignedTransaction := f } calls rs signer toA sig rts wv mc3
      arr mv cd tx cid stx e bn h1 h2 h3 h4 h5 h6 h7⟩

/-- Witness for `write_dry_run_fail_never_broadcasts`: a concrete mutating
dispatch whose dry run fails; the broadcast collaborator chosen would report
an error and a nil receipt if it were ever reached. -/
theorem write_dry_run_fail_never_broadcasts_witness :
    write envDryFail calls1 false signer0 (some 3) "aggregateCalls((address,bytes,uint256)[])"
        (some ["bytes[]"]) true false =
      DR.ok ⟨false, none,
        some "error calling contract: %!w(<nil>), with data: aggregateCalls((address,bytes,uint256)[])",
        .fromTx (some ⟨some 3, 0, ⟨"aggregateCalls((address,bytes,uint256)[])", [Val.vlist []]⟩⟩)
          0 (some 5)⟩ ∧
    write { envDryFail with sendSignedTransaction := fun _ => (none, some "never reached") }
        calls1 false signer0 (some 3) "aggregateCalls((address,bytes,uint256)[])"
        (some ["bytes[]"]) true false =
      DR.ok ⟨false, none,
        some "error calling contract: %!w(<nil>), with data: aggregateCalls((address,bytes,uint256)[])",
        .fromTx (some ⟨some 3, 0, ⟨"aggregateCalls((address,bytes,uint256)[])", [Val.vlist []]⟩⟩)
          0 (some 5)⟩ := by
  have h := write_dry_run_fail_never_broadcasts envDryFail calls1 false signer0 (some 3)
    "aggregateCalls((address,bytes,uint256)[])" (some ["bytes[]"]) true false
    (Val.vlist []) 0 ⟨"aggregateCalls((address,bytes,uint256)[])", [Val.vlist []]⟩
    ⟨some 3, 0, ⟨"aggregateCalls((address,bytes,uint256)[])", [Val.vlist []]⟩⟩ 1
    ⟨some 3, 0, ⟨"aggregateCalls((address,bytes,uint256)[])", [Val.vlist []]⟩⟩
    "execution reverted: insufficient balance" 5 rfl rfl rfl rfl rfl rfl rfl
  exact ⟨h.1, h.2 (fun _ => (none, some "never reached"))⟩

theorem decodeAggLoop_slots (env : Env) (calls : CallsI) :
    ∀ (rs : List Val) (i : Nat) (out : List Val),
      decodeAggLoop env calls i rs = DR.ok out →
      out.length = rs.length ∧
      ∀ (j : Nat) (hj : j < rs.length) (hj2 : j < out.length),
        slotDecode env (calls.getReturnTypes (i + j)) (rs.get ⟨j, hj⟩) =
          DR.ok (out.get ⟨j, hj2⟩) := by
  intro rs
  induction rs with
  | nil =>
    intro i out h
    simp only [decodeAggLoop] at h
    cases h
    exact ⟨rfl, fun j hj => absurd hj (Nat.not_lt_zero j)⟩
  | cons res rest ih =>
    intro i out h
    simp only [decodeAggLoop] at h
    rcases hrt : calls.getReturnTypes i with _ | rts <;> rw [hrt] at h
    · rcases res with b | s | nv | bv | l <;> simp only at h
      all_goals try cases h
      rcases hrec : decodeAggLoop env calls (i + 1) rest with tl | e2 | m2 <;> rw [hrec] at h <;>
        try cases h
      obtain ⟨ihlen, ihslots⟩ := ih (i + 1) tl hrec
      refine ⟨by simpa using ihlen, ?_⟩
      intro j hj hj2
      match j with
      | 0 => simp [slotDecode, hrt]
      | Nat.succ j2 =>
        have hj' : j2 < rest.length := by simpa using hj
        have hj2' : j2 < tl.length := by simpa using hj2
        have := ihslots j2 hj' hj2'
        simpa [Nat.add_assoc, Nat.add_comm 1 j2, Nat.add_left_comm] using this
    · rcases res with b | s | nv | bv | l <;> simp only at h
      · rcases hdec : env.decode (some rts) b with e2 | dv <;> rw [hdec] at h <;> try cases h
        rcases hrec : decodeAggLoop env calls (i + 1) rest with tl | e2 | m2 <;> rw [hrec] at h <;>
          try cases h
        obtain ⟨ihlen, ihslots⟩ := ih (i + 1) tl hrec
        refine ⟨by simpa using ihlen, ?_⟩
        intro j hj hj2
        match j with
        | 0 => simp [slotDecode, hrt, hdec]
        | Nat.succ j2 =>
          have hj' : j2 < rest.length := by simpa using hj
          have hj2' : j2 < tl.length := by simpa using hj2
          have := ihslots j2 hj' hj2'
          simpa [Nat.add_assoc, Nat.add_comm 1 j2, Nat.add_left_comm] using this
      · cases h
      · cases h
      · cases h
      · rcases hrec : decodeAggLoop env calls (i + 1) rest with tl | e2 | m2 <;> rw [hrec] at h <;>
          try cases h
        obtain ⟨ihlen, ihslots⟩ := ih (i + 1) tl hrec
        refine ⟨by simpa using ihlen, ?_⟩
        intro j hj hj2
        match j with
        | 0 => simp [slotDecode, hrt]
        | Nat.succ j2 =>
          have hj' : j2 < rest.length := by simpa using hj
          have hj2' : j2 < tl.length := by simpa using hj2
          have := ihslots j2 hj' hj2'
          simpa [Nat.add_assoc, Nat.add_comm 1 j2, Nat.add_left_comm] using this

/-- C4 (confirmed): whenever the per-call decode step completes, it yields
one output per decoded slot, and the output at index i is obtained from the
i-th decoded slot using the return types the CallSet declares for position i
(decode the slot when it is undecoded bytes, pass it through when it is an
already-structured tuple) — order is preserved end to end. -/
theorem decodeAggregateCallsResult_pointwise (env : Env) (result : List Val) (calls : CallsI)
    (out : List Val) (h : decodeAggregateCallsResult env result calls = DR.ok out) :
    out.length = result.length ∧
    ∀ (j : Nat) (hj : j < result.length) (hj2 : j < out.length),
      slotDecode env (calls.getReturnTypes j) (result.get ⟨j, hj⟩) = DR.ok (out.get ⟨j, hj2⟩) := by
  obtain ⟨hlen, hslots⟩ := decodeAggLoop_slots env calls result 0 out h
  exact ⟨hlen, fun j hj hj2 => by simpa using hslots j hj hj2⟩

/-- Witness for `decodeAggregateCallsResult_pointwise`: a two-slot decoded
response whose first slot is raw bytes decoded against declared types and
whose second slot is an already-structured tuple passed through. -/
theorem decodeAggregateCallsResult_pointwise_witness :
    decodeAggregateCallsResult envDec [Val.vbytes [7], Val.vlist [Val.vbool true]] callsRT =
      DR.ok [Val.vlist [Val.vnat 42], Val.vlist [Val.vbool true]] ∧
    ([Val.vlist [Val.vnat 42], Val.vlist [Val.vbool true]] : List Val).length =
      ([Val.vbytes [7], Val.vlist [Val.vbool true]] : List Val).length ∧
    slotDecode envDec (callsRT.getReturnTypes 0)
        (([Val.vbytes [7], Val.vlist [Val.vbool true]] : List Val).get ⟨0, by decide⟩) =
      DR.ok (([Val.vlist [Val.vnat 42], Val.vlist [Val.vbool true]] : List Val).get ⟨0, by decide⟩) := by
  have h := decodeAggregateCallsResult_pointwise envDec
    [Val.vbytes [7], Val.vlist [Val.vbool true]] callsRT
    [Val.vlist [Val.vnat 42], Val.vlist [Val.vbool true]] rfl
  exact ⟨rfl, h.1, h.2 0 (by decide) (by decide)⟩

/-- C5 (counterexample): in the pure-read encoder the requireSuccess scalar
is appended for the signature `tryAggregateStatic((address,bytes)[],bool)`,
which is not `tryAggregateCalls((address,bytes,uint256)[],bool)` — so the
scalar is not appended exclusively for the latter. -/
theorem read_encodes_scalar_for_static_try :
    readEncodeCalldata env0 "tryAggregateStatic((address,bytes)[],bool)" (Val.vlist []) true true =
      (Except.ok ⟨"tryAggregateStatic((address,bytes)[],bool)", [Val.vlist [], Val.vbool true]⟩,
        false) ∧
    ¬("tryAggregateStatic((address,bytes)[],bool)" = "tryAggregateCalls((address,bytes,uint256)[],bool)") :=
  ⟨rfl, by decide⟩

/-- C5 (amended): in the mutating (`write`) and transaction-as-read
(`asRead`) encoders the requireSuccess scalar is appended exactly when the
signature is `tryAggregateCalls((address,bytes,uint256)[],bool)`; in the
pure-read (`read`) encoder it is appended exactly when the signature is
`tryAggregateStatic((address,bytes)[],bool)`; every other signature encodes
only the tuple array. -/
theorem requireSuccess_scalar_cases
    (env : Env) (sig : String) (arr : Val) (rs isSim : Bool)
    (cdW cdA cdR : Calldata) (b : Bool)
    (hW : writeEncodeCalldata env sig arr rs = .ok cdW)
    (hA : asReadEncodeCalldata env sig arr rs = .ok cdA)
    (hR : readEncodeCalldata env sig arr rs isSim = (.ok cdR, b)) :
    (cdW.args = [arr, Val.vbool rs] ↔ sig = "tryAggregateCalls((address,bytes,uint256)[],bool)") ∧
    (cdA.args = [arr, Val.vbool rs] ↔ sig = "tryAggregateCalls((address,bytes,uint256)[],bool)") ∧
    (cdR.args = [arr, Val.vbool rs] ↔ sig = "tryAggregateStatic((address,bytes)[],bool)") := by
  refine ⟨?_, ?_, ?_⟩
  · unfold writeEncodeCalldata at hW
    split at hW
    · rename_i hsig
      unfold encodeWithSignature at hW
      split at hW
      · cases hW
      · cases hW
        simp [hsig]
    · rename_i hsig
      unfold encodeWithSignature at hW
      split at hW
      · cases hW
      · cases hW
        simp [hsig]
  · unfold asReadEncodeCalldata at hA
    split at hA
    · rename_i hsig
      unfold encodeWithSignature at hA
      split at hA
      · cases hA
      · cases hA
        simp [hsig]
    · rename_i hsig
      unfold encodeWithSignature at hA
      split at hA
      · cases hA
      · cases hA
        simp [hsig]
  · by_cases hsig : sig = "tryAggregateStatic((address,bytes)[],bool)"
    · simp only [readEncodeCalldata, hsig, if_true, ite_true, Prod.mk.injEq, String.reduceEq,
        reduceIte] at hR
      obtain ⟨hR1, _⟩ := hR
      unfold encodeWithSignature at hR1
      rcases henc : env.encodeErr "tryAggregateStatic((address,bytes)[],bool)"
          [arr, Val.vbool rs] with _ | e2 <;> rw [henc] at hR1
      · cases hR1
        simp [hsig]
      · cases hR1
    · simp only [readEncodeCalldata, Prod.mk.injEq, if_neg hsig] at hR
      obtain ⟨hR1, _⟩ := hR
      unfold encodeWithSignature at hR1
      rcases henc : env.encodeErr sig [arr] with _ | e2 <;> rw [henc] at hR1
      · cases hR1
        simp [hsig]
      · cases hR1

/-- Witness for `requireSuccess_scalar_cases` at the three-field-tuple
failure-tolerant aggregate signature. -/
theorem requireSuccess_scalar_cases_witness :
    ((⟨"tryAggregateCalls((address,bytes,uint256)[],bool)",
        [Val.vlist [], Val.vbool true]⟩ : Calldata).args = [Val.vlist [], Val.vbool true] ↔
      "tryAggregateCalls((address,bytes,uint256)[],bool)" =
        "tryAggregateCalls((address,bytes,uint256)[],bool)") ∧
    ((⟨"tryAggregateCalls((address,bytes,uint256)[],bool)",
        [Val.vlist [], Val.vbool true]⟩ : Calldata).args = [Val.vlist [], Val.vbool true] ↔
      "tryAggregateCalls((address,bytes,uint256)[],bool)" =
        "tryAggregateCalls((address,bytes,uint256)[],bool)") ∧
    ((⟨"tryAggregateCalls((address,bytes,uint256)[],bool)",
        [Val.vlist []]⟩ : Calldata).args = [Val.vlist [], Val.vbool true] ↔
      "tryAggregateCalls((address,bytes,uint256)[],bool)" =
        "tryAggregateStatic((address,bytes)[],bool)") :=
  requireSuccess_scalar_cases env0 "tryAggregateCalls((address,bytes,uint256)[],bool)"
    (Val.vlist []) true false
    ⟨"tryAggregateCalls((address,bytes,uint256)[],bool)", [Val.vlist [], Val.vbool true]⟩
    ⟨"tryAggregateCalls((address,bytes,uint256)[],bool)", [Val.vlist [], Val.vbool true]⟩
    ⟨"tryAggregateCalls((address,bytes,uint256)[],bool)", [Val.vlist []]⟩
    false rfl rfl rfl

/-- C6 (counterexample): a dispatch path other than the identified unchecked
type assertion on an already-failed revert decode aborts the process: a
non-simulate static aggregate whose outer decode succeeds (no revert
involved) but yields a single slot for a two-call batch panics inside the
count-matching unwrap. -/
theorem dispatch_aborts_outside_revert_decode :
    MultiCall.AggregateStatic ⟨some 1, none⟩ envOneSlot calls2 none =
      DR.crash "interface conversion" := by rfl

/-- C6 (amended): every failure the read dispatch explicitly checks —
normalization, encoding, transport outside simulate mode, and the outer
decode — is returned as a terminal Result carrying that error (never a bare
error, never an abort); but contrary to the claim, abort paths other than
the identified revert-decode assertion exist: the count-matching unwrap
panics on structurally mismatched decodes. -/
theorem read_checked_failures_terminal :
    (∀ (env : Env) (calls : CallsI) (rs : Bool) (toA : Option Addr) (sig : String)
      (rts : Option (List String)) (bn : Option Nat) (isSim : Bool) (e : GoError),
      calls.toArray false false = .error e →
      readDispatch env calls rs toA sig rts bn isSim = DR.ok ⟨false, none, some e, .empty⟩) ∧
    (∀ (env : Env) (calls : CallsI) (rs : Bool) (toA : Option Addr) (sig : String)
      (rts : Option (List String)) (bn : Option Nat) (isSim : Bool)
      (arr : Val) (mv : Nat) (e : GoError) (b : Bool),
      calls.toArray false false = .ok (arr, mv) →
      readEncodeCalldata env sig arr rs isSim = (.error e, b) →
      readDispatch env calls rs toA sig rts bn isSim = DR.ok ⟨false, none, some e, .empty⟩) ∧
    (∀ (env : Env) (calls : CallsI) (rs : Bool) (toA : Option Addr) (sig : String)
      (rts : Option (List String)) (bn : Option Nat) (isSim : Bool)
      (arr : Val) (mv : Nat) (cd : Calldata) (bytesv : Bytes) (rec : CallRec) (e : GoError),
      calls.toArray false false = .ok (arr, mv) →
      readEncodeCalldata env sig arr rs isSim = (.ok cd, false) →
      env.readContract 0 toA cd bn = (bytesv, rec, some e) →
      readDispatch env calls rs toA sig rts bn isSim = DR.ok ⟨false, none, some e, .empty⟩) ∧
    (∀ (env : Env) (calls : CallsI) (rs : Bool) (toA : Option Addr) (sig : String)
      (rts : Option (List String)) (bn : Option Nat) (isSim : Bool)
      (arr : Val) (mv : Nat) (cd : Calldata) (bytesv : Bytes) (rec : CallRec) (e : GoError),
      calls.toArray false false = .ok (arr, mv) →
      readEncodeCalldata env sig arr rs isSim = (.ok cd, false) →
      env.readContract 0 toA cd bn = (bytesv, rec, none) →
      env.decode rts bytesv = .error e →
      readDispatch env calls rs toA sig rts bn isSim = DR.ok ⟨false, none, some e, .empty⟩) := by
  refine ⟨?_, ?_, ?_, ?_⟩
  · intro env calls rs toA sig rts bn isSim e h1
    simp only [readDispatch, h1]
  · intro env calls rs toA sig rts bn isSim arr mv e b h1 h2
    simp only [readDispatch, h1, h2]
  · intro env calls rs toA sig rts bn isSim arr mv cd bytesv rec e h1 h2 h3
    simp only [readDispatch, makeCall, h1, h2, h3]
  · intro env calls rs toA sig rts bn isSim arr mv cd bytesv rec e h1 h2 h3 h4
    simp only [readDispatch, makeCall, h1, h2, h3, h4]

/-- Witness for `read_checked_failures_terminal`: each checked stage failing
on a concrete input yields the corresponding terminal Result. -/
theorem read_checked_failures_terminal_witness :
    readDispatch env0 callsBad false (some 1) "aggregateStatic((address,bytes)[])" (some ["bytes[]"])
        none false = DR.ok ⟨false, none, some "invalid target address", .empty⟩ ∧
    readDispatch envEncFail calls1 false (some 1) "aggregateStatic((address,bytes)[])" (some ["bytes[]"])
        none false = DR.ok ⟨false, none, some "cannot encode arguments", .empty⟩ ∧
    readDispatch envTransportFail calls1 false (some 1) "aggregateStatic((address,bytes)[])"
        (some ["bytes[]"]) none false =
      DR.ok ⟨false, none, some "connection refused", .empty⟩ ∧
    readDispatch envDecodeFail calls1 false (some 1) "aggregateStatic((address,bytes)[])"
        (some ["bytes[]"]) none false =
      DR.ok ⟨false, none, some "abi: cannot unmarshal", .empty⟩ :=
  ⟨read_checked_failures_terminal.1 env0 callsBad false (some 1)
      "aggregateStatic((address,bytes)[])" (some ["bytes[]"]) none false
      "invalid target address" rfl,
   read_checked_failures_terminal.2.1 envEncFail calls1 false (some 1)
      "aggregateStatic((address,bytes)[])" (some ["bytes[]"]) none false
      (Val.vlist []) 0 "cannot encode arguments" false rfl rfl,
   read_checked_failures_terminal.2.2.1 envTransportFail calls1 false (some 1)
      "aggregateStatic((address,bytes)[])" (some ["bytes[]"]) none false
      (Val.vlist []) 0 ⟨"aggregateStatic((address,bytes)[])", [Val.vlist []]⟩ []
      ⟨⟨"aggregateStatic((address,bytes)[])", [Val.vlist []]⟩⟩ "connection refused" rfl rfl rfl,
   read_checked_failures_terminal.2.2.2 envDecodeFail calls1 false (some 1)
      "aggregateStatic((address,bytes)[])" (some ["bytes[]"]) none false
      (Val.vlist []) 0 ⟨"aggregateStatic((address,bytes)[])", [Val.vlist []]⟩ [0]
      ⟨⟨"aggregateStatic((address,bytes)[])", [Val.vlist []]⟩⟩ "abi: cannot unmarshal"
      rfl rfl rfl rfl⟩

/-- C7 (counterexample): probing every public entry point with no deployed
contract, the number of entry points that route to a deployless collaborator
is not three. -/
theorem deployless_entry_count_not_three :
    ¬((allEntryPoints.filter routesToDeployless).length = 3) := by decide

/-- C7 (amended): exactly eight public entry points (SimulateCall,
AggregateStatic, TryAggregateStatic, TryAggregateStatic3, CodeLengths,
Balances, AddressesData, ChainData) have a deployless variant, and each of
them routes to its deployless collaborator whenever the construction-time
check left `ContractAddress` nil; the three mutating entry points instead
fail with a "no multicall contract on this chain" Result. -/
theorem deployless_entry_count_and_transparency :
    ((allEntryPoints.filter routesToDeployless).length = 8) ∧
    ∀ (ep : EntryPoint) (m : MultiCall) (env : Env) (calls : CallsI)
      (addrs : Option (List Addr)) (rs : Bool) (bn : Option Nat) (isCall : Bool),
      routesToDeployless ep = true → m.contractAddress = none →
      dispatchEntry ep m env calls addrs rs bn isCall =
        DR.ok (deploylessOf ep env calls addrs rs bn) := by
  refine ⟨by decide, ?_⟩
  intro ep m env calls addrs rs bn isCall hroute hnil
  obtain ⟨ca, s⟩ := m
  cases hnil
  cases ep
  case aggregateCalls => exact absurd hroute (by decide)
  case tryAggregateCalls => exact absurd hroute (by decide)
  case tryAggregateCalls3 => exact absurd hroute (by decide)
  all_goals rfl

/-- Witness for `deployless_entry_count_and_transparency` at the simulate
entry point with no deployed contract. -/
theorem deployless_entry_transparency_witness :
    routesToDeployless EntryPoint.simulateCall = true ∧
    dispatchEntry EntryPoint.simulateCall ⟨none, none⟩ env0 calls1 (some []) false none false =
      DR.ok (deploylessOf EntryPoint.simulateCall env0 calls1 (some []) false none) :=
  ⟨by decide,
   deployless_entry_count_and_transparency.2 EntryPoint.simulateCall ⟨none, none⟩ env0 calls1
     (some []) false none false (by decide) rfl⟩

/-- C8 (confirmed): whenever a dispatch reaches result production, the
Result's payload is the reconciled per-call list when that list is
non-empty and otherwise the raw decoded outer value: this holds for the
pure-read and transaction-as-read paths (whose reconciled list comes from
`makeCall`), for the metadata path `getData` — which takes a flat optional
address list instead of a CallSet, performs no per-call reconciliation, and
returns the single decoded outer value set — and for the mutating path,
whose decoded outer value (never reconciled) is the payload when non-empty. -/
theorem result_payload_selection :
    (∀ (env : Env) (calls : CallsI) (rs : Bool) (toA : Option Addr) (sig : String)
      (rts : Option (List String)) (bn : Option Nat) (isSim : Bool)
      (arr : Val) (mv : Nat) (cd : Calldata) (isSim2 : Bool)
      (d agg : List Val) (c : TxOrCall),
      calls.toArray false false = .ok (arr, mv) →
      readEncodeCalldata env sig arr rs isSim = (.ok cd, isSim2) →
      makeCall env calls toA cd rts isSim2 bn = DR.ok (d, agg, c) →
      readDispatch env calls rs toA sig rts bn isSim =
        DR.ok ⟨true, some (if 0 < agg.length then GoAny.listV agg else GoAny.listV d),
          none, c⟩) ∧
    (∀ (env : Env) (calls : CallsI) (rs : Bool) (toA : Option Addr) (sig : String)
      (rts : Option (List String)) (bn : Option Nat)
      (arr : Val) (mv : Nat) (cd : Calldata) (d agg : List Val) (c : TxOrCall),
      calls.toArray true false = .ok (arr, mv) →
      asReadEncodeCalldata env sig arr rs = .ok cd →
      makeCall env calls toA cd rts false bn = DR.ok (d, agg, c) →
      asRead env calls rs toA sig rts bn =
        DR.ok ⟨true, some (if 0 < agg.length then GoAny.listV agg else GoAny.listV d),
          none, c⟩) ∧
    (∀ (env : Env) (addrs : Option (List Addr)) (toA : Option Addr) (sig : String)
      (rts : Option (List String)) (bnv : Nat) (cd : Calldata) (bytesv : Bytes)
      (rec : CallRec) (d : List Val),
      (match addrs with
       | some as2 => encodeWithSignature env sig [Val.vlist (as2.map Val.vnat)]
       | none => encodeWithSignature env sig []) = .ok cd →
      env.readContract 0 toA cd (some bnv) = (bytesv, rec, none) →
      env.decode rts bytesv = .ok d →
      getData env addrs toA sig rts (some bnv) =
        DR.ok ⟨true, some (GoAny.listV d), none, .fromCall rec (some bnv)⟩) ∧
    (∀ (env : Env) (calls : CallsI) (rs : Bool) (signer : SignerI) (toA : Option Addr)
      (sig : String) (rts : Option (List String)) (wv mc3 : Bool)
      (arr : Val) (mv : Nat) (cd : Calldata) (tx : Tx) (cid : Nat) (stx : Tx)
      (bytesv : Bytes) (receipt : Receipt) (decoded : List Val),
      calls.toArray wv mc3 = .ok (arr, mv) →
      writeEncodeCalldata env sig arr rs = .ok cd →
      env.createTransaction signer.address toA mv cd = .ok tx →
      env.chainId = .ok cid →
      signer.signTx tx cid = .ok stx →
      env.callContract signer.address toA cd = .ok bytesv →
      env.sendSignedTransaction stx = (some receipt, none) →
      env.decode rts bytesv = .ok decoded →
      0 < decoded.length →
      write env calls rs signer toA sig rts wv mc3 =
        DR.ok ⟨receipt.status == 1, some (GoAny.listV decoded), none,
          .fromTx (some stx) signer.address receipt.blockNumber⟩) := by
  refine ⟨?_, ?_, ?_, ?_⟩
  · intro env calls rs toA sig rts bn isSim arr mv cd isSim2 d agg c h1 h2 h3
    by_cases hl : 0 < agg.length
    · simp only [readDispatch, h1, h2, h3, parseResults, gt_iff_lt, if_pos hl]
    · simp only [readDispatch, h1, h2, h3, parseResults, gt_iff_lt, if_neg hl]
  · intro env calls rs toA sig rts bn arr mv cd d agg c h1 h2 h3
    by_cases hl : 0 < agg.length
    · simp only [asRead, h1, h2, h3, parseResults, gt_iff_lt, if_pos hl]
    · simp only [asRead, h1, h2, h3, parseResults, gt_iff_lt, if_neg hl]
  · intro env addrs toA sig rts bnv cd bytesv rec d h1 h2 h3
    simp only [getData, h1, h2, h3]
  · intro env calls rs signer toA sig rts wv mc3 arr mv cd tx cid stx bytesv receipt decoded
      h1 h2 h3 h4 h5 h6 h7 h8 hl
    simp only [write, h1, h2, h3, h4, h5, h6, h7, h8, parseResults, gt_iff_lt, if_pos hl]

/-- Witness for `result_payload_selection`: concrete successful dispatches on
each of the four result-producing paths. -/
theorem result_payload_selection_witness :
    readDispatch env0 calls1 false (some 1) "aggregateStatic((address,bytes)[])"
        (some ["bytes[]"]) none false =
      DR.ok ⟨true, some (GoAny.listV [Val.vlist [Val.vbool true, Val.vbytes [1]]]), none,
        .fromCall ⟨⟨"aggregateStatic((address,bytes)[])", [Val.vlist []]⟩⟩ (some 5)⟩ ∧
    asRead env0 calls1 false (some 1) "aggregateCalls((address,bytes,uint256)[])"
        (some ["bytes[]"]) none =
      DR.ok ⟨true, some (GoAny.listV [Val.vlist [Val.vbool true, Val.vbytes [1]]]), none,
        .fromCall ⟨⟨"aggregateCalls((address,bytes,uint256)[])", [Val.vlist []]⟩⟩ (some 5)⟩ ∧
    getData env0 (some [1, 2]) (some 1) "getBalances(address[])" (some ["uint256[]"])
        (some 4) =
      DR.ok ⟨true, some (GoAny.listV [Val.vlist [Val.vbool true, Val.vbytes [1]]]), none,
        .fromCall ⟨⟨"getBalances(address[])", [Val.vlist [Val.vnat 1, Val.vnat 2]]⟩⟩ (some 4)⟩ ∧
    write env0 calls1 false signer0 (some 1) "aggregateCalls((address,bytes,uint256)[])"
        (some ["bytes[]"]) true false =
      DR.ok ⟨true, some (GoAny.listV [Val.vlist [Val.vbool true, Val.vbytes [1]]]), none,
        .fromTx (some ⟨some 1, 0, ⟨"aggregateCalls((address,bytes,uint256)[])", [Val.vlist []]⟩⟩)
          0 (some 9)⟩ :=
  ⟨result_payload_selection.1 env0 calls1 false (some 1) "aggregateStatic((address,bytes)[])"
      (some ["bytes[]"]) none false (Val.vlist []) 0
      ⟨"aggregateStatic((address,bytes)[])", [Val.vlist []]⟩ false
      [Val.vlist [Val.vbool true, Val.vbytes [1]]] [Val.vlist [Val.vbool true, Val.vbytes [1]]]
      (.fromCall ⟨⟨"aggregateStatic((address,bytes)[])", [Val.vlist []]⟩⟩ (some 5)) rfl rfl rfl,
   result_payload_selection.2.1 env0 calls1 false (some 1)
      "aggregateCalls((address,bytes,uint256)[])" (some ["bytes[]"]) none (Val.vlist []) 0
      ⟨"aggregateCalls((address,bytes,uint256)[])", [Val.vlist []]⟩
      [Val.vlist [Val.vbool true, Val.vbytes [1]]] [Val.vlist [Val.vbool true, Val.vbytes [1]]]
      (.fromCall ⟨⟨"aggregateCalls((address,bytes,uint256)[])", [Val.vlist []]⟩⟩ (some 5))
      rfl rfl rfl,
   result_payload_selection.2.2.1 env0 (some [1, 2]) (some 1) "getBalances(address[])"
      (some ["uint256[]"]) 4 ⟨"getBalances(address[])", [Val.vlist [Val.vnat 1, Val.vnat 2]]⟩
      [0] ⟨⟨"getBalances(address[])", [Val.vlist [Val.vnat 1, Val.vnat 2]]⟩⟩
      [Val.vlist [Val.vbool true, Val.vbytes [1]]] rfl rfl rfl,
   result_payload_selection.2.2.2 env0 calls1 false signer0 (some 1)
      "aggregateCalls((address,bytes,uint256)[])" (some ["bytes[]"]) true false (Val.vlist []) 0
      ⟨"aggregateCalls((address,bytes,uint256)[])", [Val.vlist []]⟩
      ⟨some 1, 0, ⟨"aggregateCalls((address,bytes,uint256)[])", [Val.vlist []]⟩⟩ 1
      ⟨some 1, 0, ⟨"aggregateCalls((address,bytes,uint256)[])", [Val.vlist []]⟩⟩
      [0] ⟨1, some 9⟩ [Val.vlist [Val.vbool true, Val.vbytes [1]]]
      rfl rfl rfl rfl rfl rfl rfl rfl (by decide)⟩

/-- C9 (confirmed): each of the three mutating entry points invoked with a
nil signer and isCall=false returns the "no signer configured" failure — the
same Result for every environment, so the guard fires before any network
access — while the same entry points invoked with isCall=true proceed into
the signerless transaction-as-read path. -/
theorem mutating_entries_signer_guard
    (m : MultiCall) (env : Env) (calls : CallsI) (rs : Bool) (bn : Option Nat)
    (hs : m.signer = none) :
    (m.AggregateCalls env calls bn false =
      DR.ok ⟨false, none, some "no signer configured", .empty⟩) ∧
    (m.TryAggregateCalls env calls rs bn false =
      DR.ok ⟨false, none, some "no signer configured", .empty⟩) ∧
    (m.TryAggregateCalls3 env calls bn false =
      DR.ok ⟨false, none, some "no signer configured", .empty⟩) ∧
    (∀ a, m.contractAddress = some a →
      m.AggregateCalls env calls bn true =
        txAsRead env calls false (some a) "aggregateCalls((address,bytes,uint256)[])"
          (some ["bytes[]"]) bn ∧
      m.TryAggregateCalls env calls rs bn true =
        txAsRead env calls rs (some a) "tryAggregateCalls((address,bytes,uint256)[],bool)"
          (some ["(bool,bytes)[]"]) bn ∧
      m.TryAggregateCalls3 env calls bn true =
        txAsReadWithFailure env calls false (some a)
          "tryAggregateCalls((address,bytes,uint256,bool)[])" (some ["(bool,bytes)[]"]) bn) := by
  obtain ⟨ca, s⟩ := m
  cases hs
  refine ⟨rfl, rfl, rfl, ?_⟩
  intro a ha
  cases ha
  exact ⟨rfl, rfl, rfl⟩

/-- Witness for `mutating_entries_signer_guard` at a signerless client with a
deployed contract. -/
theorem mutating_entries_signer_guard_witness :
    (MultiCall.AggregateCalls ⟨some 1, none⟩ env0 calls1 none false =
      DR.ok ⟨false, none, some "no signer configured", .empty⟩) ∧
    (MultiCall.TryAggregateCalls ⟨some 1, none⟩ env0 calls1 true none false =
      DR.ok ⟨false, none, some "no signer configured", .empty⟩) ∧
    (MultiCall.TryAggregateCalls3 ⟨some 1, none⟩ env0 calls1 none false =
      DR.ok ⟨false, none, some "no signer configured", .empty⟩) ∧
    (MultiCall.AggregateCalls ⟨some 1, none⟩ env0 calls1 none true =
      txAsRead env0 calls1 false (some 1) "aggregateCalls((address,bytes,uint256)[])"
        (some ["bytes[]"]) none) := by
  have h := mutating_entries_signer_guard ⟨some 1, none⟩ env0 calls1 true none rfl
  exact ⟨h.1, h.2.1, h.2.2.1, (h.2.2.2 1 rfl).1⟩

/-- C10 (confirmed): on the three non-mutating dispatch paths (`asRead`,
`readDispatch`, `getData`) every produced Result has its success flag true
exactly when its error field is nil: each error return carries
Success=false, and each completed dispatch sets Success=true with nil
error. -/
theorem read_paths_success_iff_errorless :
    (∀ (env : Env) (calls : CallsI) (rs : Bool) (toA : Option Addr) (sig : String)
      (rts : Option (List String)) (bn : Option Nat) (r : Result),
      asRead env calls rs toA sig rts bn = DR.ok r →
      (r.success = true ↔ r.error = none)) ∧
    (∀ (env : Env) (calls : CallsI) (rs : Bool) (toA : Option Addr) (sig : String)
      (rts : Option (List String)) (bn : Option Nat) (isSim : Bool) (r : Result),
      readDispatch env calls rs toA sig rts bn isSim = DR.ok r →
      (r.success = true ↔ r.error = none)) ∧
    (∀ (env : Env) (addrs : Option (List Addr)) (toA : Option Addr) (sig : String)
      (rts : Option (List String)) (bn : Option Nat) (r : Result),
      getData env addrs toA sig rts bn = DR.ok r →
      (r.success = true ↔ r.error = none)) := by
  refine ⟨?_, ?_, ?_⟩
  · intro env calls rs toA sig rts bn r h
    unfold asRead at h
    split at h
    · cases h; simp
    · split at h
      · cases h; simp
      · split at h
        · cases h
        · cases h; simp
        · cases h
          unfold parseResults
          split <;> simp
  · intro env calls rs toA sig rts bn isSim r h
    unfold readDispatch at h
    split at h
    · cases h; simp
    · split at h
      · cases h; simp
      · split at h
        · cases h
        · cases h; simp
        · cases h
          unfold parseResults
          split <;> simp
  · intro env addrs toA sig rts bn r h
    simp only [getData] at h
    rcases henc : (match addrs with
        | some addrs2 => encodeWithSignature env sig [Val.vlist (addrs2.map Val.vnat)]
        | none => encodeWithSignature env sig []) with e | cd <;> rw [henc] at h <;>
      dsimp only at h
    · cases h; simp
    · rcases hrc : env.readContract 0 toA cd bn with ⟨bs, rec2, err2⟩
      rw [hrc] at h
      dsimp only at h
      rcases err2 with _ | e
      · dsimp only at h
        rcases hdec : env.decode rts bs with e | d <;> rw [hdec] at h
        · cases h; simp
        · rcases bn with _ | bnv
          · dsimp only at h
            rcases hbn : env.blockNumber with e | bnv2 <;> rw [hbn] at h <;> cases h <;> simp
          · cases h; simp
      · cases h; simp

/-- Witness for `read_paths_success_iff_errorless` on a completed metadata
read. -/
theorem read_paths_success_iff_errorless_witness :
    getData env0 (some []) (some 1) "getBalances(address[])" (some ["uint256[]"]) (some 4) =
      DR.ok ⟨true, some (GoAny.listV [Val.vlist [Val.vbool true, Val.vbytes [1]]]), none,
        .fromCall ⟨⟨"getBalances(address[])", [Val.vlist []]⟩⟩ (some 4)⟩ ∧
    ((⟨true, some (GoAny.listV [Val.vlist [Val.vbool true, Val.vbytes [1]]]), none,
        .fromCall ⟨⟨"getBalances(address[])", [Val.vlist []]⟩⟩ (some 4)⟩ : Result).success = true ↔
      (⟨true, some (GoAny.listV [Val.vlist [Val.vbool true, Val.vbytes [1]]]), none,
        .fromCall ⟨⟨"getBalances(address[])", [Val.vlist []]⟩⟩ (some 4)⟩ : Result).error = none) :=
  ⟨rfl,
   read_paths_success_iff_errorless.2.2 env0 (some []) (some 1) "getBalances(address[])"
     (some ["uint256[]"]) (some 4)
     ⟨true, some (GoAny.listV [Val.vlist [Val.vbool true, Val.vbytes [1]]]), none,
       .fromCall ⟨⟨"getBalances(address[])", [Val.vlist []]⟩⟩ (some 4)⟩ rfl⟩
